import Mathlib

/-!
Verification of the lightnovel-bookmark frontend core: the preference
overlay store, the enhanced view compositor, the reading-session tracker
and the statistics aggregator.  Every definition below is a shallow
embedding of a function from the repository sources (file and symbol named
in its doc comment); remote calls and the caller-provided callback are
passed in explicitly as oracle arguments, and JavaScript timestamps are
represented by their epoch-millisecond values as integers.
-/

namespace LNB

/-- Embeds the `UserPreference` interface of `src/lib/types/novel.ts`.
Optional fields of the TypeScript interface become `Option`; an absent
(`undefined`) field is `none`. -/
structure UserPreference where
  novel_id : Nat
  status : Option String
  is_favorite : Option Bool
  current_chapter : Option Nat
  rating : Option Nat
  personal_notes : Option String
  date_started : Option String
  date_completed : Option String
  deriving Repr, DecidableEq

/-- Embeds the `Novel` interface of `src/lib/types/novel.ts`. -/
structure Novel where
  id : Nat
  title : String
  author : String
  description : String
  status : String
  genres : List String
  cover_url : Option String
  source_url : Option String
  total_chapters : Nat
  total_volumes : Nat
  content_type : String
  raw_status : String
  deriving Repr, DecidableEq

/-- The preference map `Record<number, UserPreference>` (novelId to
preference) of `src/lib/stores/user-preferences.ts`, embedded as an
association list. -/
abbrev Preferences := List (Nat × UserPreference)

/-- Indexing `preferences[novelId]` on the record: first binding wins
(record keys are unique in the source). -/
def prefsLookup (preferences : Preferences) (novelId : Nat) : Option UserPreference :=
  preferences.lookup novelId

/-- The object returned by `getUserNovelData` in
`src/lib/stores/user-preferences.ts`; each field is `none` exactly when the
TypeScript property is absent or `undefined`. -/
structure UserNovelData where
  userStatus : Option String
  isFavorite : Option Bool
  currentChapter : Option Nat
  rating : Option Nat
  personalNotes : Option String
  dateStarted : Option String
  dateCompleted : Option String
  deriving Repr, DecidableEq

/-- Embeds `getUserNovelData` (`src/lib/stores/user-preferences.ts`,
lines 251-264): when no preference exists it returns the empty object, so
every field reads back as `undefined` (`none` here); otherwise it projects
the preference record. -/
def getUserNovelData (novelId : Nat) (preferences : Preferences) : UserNovelData :=
  match prefsLookup preferences novelId with
  | none => ⟨none, none, none, none, none, none, none⟩
  | some pref =>
      ⟨pref.status, pref.is_favorite, pref.current_chapter, pref.rating,
        pref.personal_notes, pref.date_started, pref.date_completed⟩

/-- Embeds the `EnhancedNovel` interface of `src/lib/types/novel.ts`
(`extends Novel` becomes a `novel` component). -/
structure EnhancedNovel where
  novel : Novel
  userPreference : Option UserPreference
  userStatus : Option String
  isFavorite : Option Bool
  currentChapter : Option Nat
  rating : Option Nat
  personalNotes : Option String
  dateStarted : Option String
  dateCompleted : Option String
  deriving Repr, DecidableEq

/-- Embeds the derived store `enhancedNovels`
(`src/lib/stores/novels.ts`, lines 260-281): a map over the catalog list
joining each novel with `getUserNovelData` and the raw preference record. -/
def enhancedNovels (novels : List Novel) (preferences : Preferences) : List EnhancedNovel :=
  novels.map fun novel =>
    let userData := getUserNovelData novel.id preferences
    { novel := novel
      userPreference := prefsLookup preferences novel.id
      userStatus := userData.userStatus
      isFavorite := userData.isFavorite
      currentChapter := userData.currentChapter
      rating := userData.rating
      personalNotes := userData.personalNotes
      dateStarted := userData.dateStarted
      dateCompleted := userData.dateCompleted }

/-- The accumulator object of the derived store `readingStats`
(`src/lib/stores/user-preferences.ts`, lines 304-339). -/
structure ReadingStatsCounts where
  total : Nat
  reading : Nat
  completed : Nat
  onHold : Nat
  dropped : Nat
  wishlist : Nat
  favorites : Nat
  deriving Repr, DecidableEq

/-- One iteration of the `forEach` body of `readingStats`: bump `total`,
bump `favorites` when `is_favorite` is truthy, and bump the bucket selected
by the `switch` on `status` (no `default` case: unknown or missing statuses
bump no bucket). -/
def statsStep (stats : ReadingStatsCounts) (data : UserPreference) : ReadingStatsCounts :=
  let s1 := { stats with total := stats.total + 1 }
  let s2 := if data.is_favorite = some true then { s1 with favorites := s1.favorites + 1 } else s1
  match data.status with
  | some "Reading" => { s2 with reading := s2.reading + 1 }
  | some "Completed" => { s2 with completed := s2.completed + 1 }
  | some "On Hold" => { s2 with onHold := s2.onHold + 1 }
  | some "Dropped" => { s2 with dropped := s2.dropped + 1 }
  | some "Wishlist" => { s2 with wishlist := s2.wishlist + 1 }
  | _ => s2

/-- Embeds the derived store `readingStats`
(`src/lib/stores/user-preferences.ts`, lines 304-339): one pass with
`Object.values($prefs.preferences).forEach` over the preference map. -/
def readingStats (preferences : Preferences) : ReadingStatsCounts :=
  (preferences.map Prod.snd).foldl statsStep ⟨0, 0, 0, 0, 0, 0, 0⟩

/-- Membership of a status value in the five `case` labels of the
`readingStats` switch; a missing status is not known. -/
def isKnownStatus (status : Option String) : Bool :=
  match status with
  | none => false
  | some s =>
      s == "Reading" || s == "Completed" || s == "On Hold" || s == "Dropped" || s == "Wishlist"

/-- Embeds `FRONTEND_TO_BACKEND_STATUS` (`src/lib/api/novels.ts`,
lines 55-61). -/
def FRONTEND_TO_BACKEND_STATUS : List (String × String) :=
  [("Reading", "reading"), ("Wishlist", "plan_to_read"), ("Completed", "completed"),
    ("On Hold", "on_hold"), ("Dropped", "dropped")]

/-- Embeds `BACKEND_TO_FRONTEND_STATUS` (`src/lib/api/novels.ts`,
lines 63-69). -/
def BACKEND_TO_FRONTEND_STATUS : List (String × String) :=
  [("reading", "Reading"), ("plan_to_read", "Wishlist"), ("completed", "Completed"),
    ("on_hold", "On Hold"), ("dropped", "Dropped")]

/-- Embeds `mapStatusToBackend` (`src/lib/api/novels.ts`, lines 188-191):
a falsy argument (absent or the empty string) yields `undefined`;
otherwise the table value when present, else the argument itself
(the `|| frontendStatus` fallback). -/
def mapStatusToBackend (frontendStatus : Option String) : Option String :=
  match frontendStatus with
  | none => none
  | some s => if s = "" then none else some ((FRONTEND_TO_BACKEND_STATUS.lookup s).getD s)

/-- Embeds `mapStatusToFrontend` (`src/lib/api/novels.ts`, lines 193-196). -/
def mapStatusToFrontend (backendStatus : Option String) : Option String :=
  match backendStatus with
  | none => none
  | some s => if s = "" then none else some ((BACKEND_TO_FRONTEND_STATUS.lookup s).getD s)

/-- Embeds the helper `formatSessionDuration`
(`src/lib/stores/reading-sessions.ts`, lines 260-270).  The argument is the
optional `durationMinutes`; the guard `if (!durationMinutes)` is true for
`undefined` and for `0`. -/
def formatSessionDuration (durationMinutes : Option Nat) : String :=
  match durationMinutes with
  | none => "Unknown"
  | some d =>
      if d = 0 then "Unknown"
      else
        let hours := d / 60
        let minutes := d % 60
        if hours > 0 then toString hours ++ "h " ++ toString minutes ++ "m"
        else toString minutes ++ "m"

/-- Embeds the duration computation of `endSession`
(`src/lib/stores/reading-sessions.ts`, lines 136-147): given the
epoch-millisecond value of the UTC-parsed start timestamp and of `now`,
negative elapsed time and elapsed time under one minute clamp to 1, and
otherwise the elapsed milliseconds are floor-divided by 60000. -/
def sessionDurationMinutes (startMs nowMs : Int) : Int :=
  let durationMs := nowMs - startMs
  if durationMs < 0 then 1
  else if durationMs < 60000 then 1
  else durationMs / 60000

/-- Embeds the `ReadingSession` interface of `src/lib/types/novel.ts`.
The source carries `started_at` as a naive ISO string that `endSession`
parses as UTC (lines 91-134 of `src/lib/stores/reading-sessions.ts`); the
embedding carries the parsed value directly, as UTC epoch milliseconds. -/
structure ReadingSessionRec where
  id : Nat
  novel_id : Nat
  chapter_number : Option Nat
  started_at : Int
  ended_at : Option Int
  duration_minutes : Option Int
  device_type : Option String
  deriving Repr, DecidableEq

/-- The open-session registry `Map<number, ReadingSession>` of the
reading-sessions store, embedded as an association list with unique keys. -/
abbrev ActiveSessions := List (Nat × ReadingSessionRec)

/-- `Map.get`. -/
def mapGet (m : ActiveSessions) (k : Nat) : Option ReadingSessionRec :=
  m.lookup k

/-- `Map.set`: replaces the binding for `k` when present, else appends. -/
def mapSet (m : ActiveSessions) (k : Nat) (v : ReadingSessionRec) : ActiveSessions :=
  match m with
  | [] => [(k, v)]
  | (k0, v0) :: rest => if k0 = k then (k, v) :: rest else (k0, v0) :: mapSet rest k v

/-- `Map.delete`: removes the (unique) binding for `k`. -/
def mapDelete (m : ActiveSessions) (k : Nat) : ActiveSessions :=
  match m with
  | [] => []
  | (k0, v0) :: rest => if k0 = k then rest else (k0, v0) :: mapDelete rest k

/-- The mutable state of the reading-sessions store
(`src/lib/stores/reading-sessions.ts`, lines 11-17); the `statistics`
field is omitted, no claim touches it. -/
structure ReadingSessionsState where
  sessions : List ReadingSessionRec
  activeSessions : ActiveSessions
  loading : Bool
  error : Option String
  deriving Repr, DecidableEq

/-- Embeds `startSession` (`src/lib/stores/reading-sessions.ts`,
lines 55-79).  The result of the remote call
`api.startReadingSession(novelId, ...)` is an oracle argument.  The source
consults the open-session registry nowhere: on remote success it
registers the returned session under `novelId` (silently replacing any
binding already there) and prepends it to `sessions`; on remote failure it
records the error message and rethrows. -/
def startSession (state : ReadingSessionsState) (novelId : Nat)
    (apiResult : Except String ReadingSessionRec) :
    ReadingSessionsState × Except String ReadingSessionRec :=
  match apiResult with
  | .ok session =>
      ({ state with
          activeSessions := mapSet state.activeSessions novelId session
          sessions := session :: state.sessions }, .ok session)
  | .error e => ({ state with error := some e }, .error e)

/-- Embeds `UpdateReadingSessionRequest` of `src/lib/types/novel.ts`. -/
structure UpdateReadingSessionRequest where
  chapter_number : Option Nat
  duration_minutes : Option Int
  deriving Repr, DecidableEq

/-- Embeds `endSession` (`src/lib/stores/reading-sessions.ts`,
lines 82-184).  `apiCall` is the remote `api.endReadingSession` as an
oracle over the update payload; `callbackOutcome` is `none` when no
`onSessionEnded` callback was supplied, and otherwise the outcome of
invoking it.  The whole body sits in one `try`: a missing active session
throws; a failed remote call throws; after a successful remote call the
registry binding is deleted and the session list entry replaced, then the
callback runs, and an exception it throws reaches the same `catch`, which
records the message and rethrows it. -/
def endSession (state : ReadingSessionsState) (novelId : Nat) (nowMs : Int)
    (finalChapter : Option Nat)
    (apiCall : UpdateReadingSessionRequest → Except String ReadingSessionRec)
    (callbackOutcome : Option (Except String Unit)) :
    ReadingSessionsState × Except String ReadingSessionRec :=
  match mapGet state.activeSessions novelId with
  | none =>
      let msg := "No active session found for this novel"
      ({ state with error := some msg }, .error msg)
  | some activeSession =>
      let durationMinutes := sessionDurationMinutes activeSession.started_at nowMs
      let updateData : UpdateReadingSessionRequest :=
        { chapter_number := finalChapter, duration_minutes := some durationMinutes }
      match apiCall updateData with
      | .error e => ({ state with error := some e }, .error e)
      | .ok endedSession =>
          let state1 := { state with
            activeSessions := mapDelete state.activeSessions novelId
            sessions := state.sessions.map fun s =>
              if s.id = endedSession.id then endedSession else s }
          match callbackOutcome with
          | some (.error e) => ({ state1 with error := some e }, .error e)
          | _ => (state1, .ok endedSession)

/-- One day in milliseconds, the divisor used by `calculateReadingStreak`. -/
def dayMs : Int := 86400000

/-- `setHours(0, 0, 0, 0)`: truncation of an epoch-millisecond timestamp to
its day boundary (the embedding runs the source at UTC, where local
midnight is UTC midnight). -/
def midnight (t : Int) : Int := (t / dayMs) * dayMs

/-- Insertion into a list already sorted by `started_at` descending,
implementing the comparator `(a, b) => b.started_at - a.started_at`. -/
def insertDesc (s : ReadingSessionRec) : List ReadingSessionRec → List ReadingSessionRec
  | [] => [s]
  | t :: rest => if t.started_at < s.started_at then s :: t :: rest else t :: insertDesc s rest

/-- The `[...sessions].sort(...)` of `calculateReadingStreak`: sort by
`started_at` descending. -/
def sortDesc : List ReadingSessionRec → List ReadingSessionRec
  | [] => []
  | s :: rest => insertDesc s (sortDesc rest)

/-- The `for` loop of `calculateReadingStreak`
(`src/lib/stores/reading-sessions.ts`, lines 284-298): `daysDiff` is the
whole-day gap between the (midnight-truncated) current date and session
date; a gap equal to the running streak, or to the running streak plus
one, increments the streak, and anything else stops the walk. -/
def streakWalk (currentMid : Int) : List ReadingSessionRec → Nat → Nat
  | [], streak => streak
  | session :: rest, streak =>
      let daysDiff := (currentMid - midnight session.started_at) / dayMs
      if daysDiff = (streak : Int) then streakWalk currentMid rest (streak + 1)
      else if daysDiff = (streak : Int) + 1 then streakWalk currentMid rest (streak + 1)
      else streak

/-- Embeds `calculateReadingStreak` (`src/lib/stores/reading-sessions.ts`,
lines 272-301); `nowMs` is the epoch-millisecond value of `new Date()`. -/
def calculateReadingStreak (nowMs : Int) (sessions : List ReadingSessionRec) : Nat :=
  match sessions with
  | [] => 0
  | _ => streakWalk (midnight nowMs) (sortDesc sessions) 0

/-- A session whose UTC start timestamp falls `h` milliseconds into day
number `day`; used to state streak properties. -/
def sessionOnDay (id : Nat) (day : Int) (h : Int) : ReadingSessionRec :=
  ⟨id, 1, none, day * dayMs + h, none, none, some "web"⟩

/-- JSON values as delivered by the statistics endpoint.  Numbers are
embedded as integers: only `typeof` dispatch on them matters here. -/
inductive JsonValue where
  | null : JsonValue
  | bool : Bool → JsonValue
  | num : Int → JsonValue
  | str : String → JsonValue
  | arr : List JsonValue → JsonValue
  | obj : List (String × JsonValue) → JsonValue

/-- JavaScript truthiness of a JSON value (`stats &&` guard). -/
def jsTruthy : JsonValue → Bool
  | .null => false
  | .bool b => b
  | .num n => n != 0
  | .str s => s != ""
  | .arr _ => true
  | .obj _ => true

/-- Whether `typeof v === 'object'` holds (true for `null`, arrays and
plain objects). -/
def jsTypeofIsObject : JsonValue → Bool
  | .null => true
  | .arr _ => true
  | .obj _ => true
  | _ => false

/-- `Array.isArray`. -/
def jsIsArray : JsonValue → Bool
  | .arr _ => true
  | _ => false

/-- Property access `v[key]`: `none` models `undefined`. -/
def getField (v : JsonValue) (key : String) : Option JsonValue :=
  match v with
  | .obj fields => fields.lookup key
  | _ => none

/-- Whether `typeof v[key] === 'number'` holds (false when the property is
absent, since `typeof undefined` is not `'number'`). -/
def fieldIsNumber (v : JsonValue) (key : String) : Bool :=
  match getField v key with
  | some (.num _) => true
  | _ => false

/-- The validity test of `loadNovelStats` (`src/unnamed/part_000`,
lines 138-144): `stats && typeof stats === 'object' &&
!Array.isArray(stats) && typeof stats.total_reading_time_minutes ===
'number'`. -/
def validStatsShape (stats : JsonValue) : Bool :=
  jsTruthy stats && jsTypeofIsObject stats && !jsIsArray stats &&
    fieldIsNumber stats "total_reading_time_minutes"

/-- Embeds `loadNovelStats` (`src/unnamed/part_000`, lines 131-155): the
`novelStats` value it leaves behind.  The fetch outcome is the oracle
argument; a rejected fetch is caught and yields `null`, a payload failing
the shape test yields `null`, and a passing payload is stored. -/
def loadNovelStats (response : Except String JsonValue) : Option JsonValue :=
  match response with
  | .error _ => none
  | .ok stats => if validStatsShape stats then some stats else none

/-- State of the preference client (`ApiClient` of `src/lib/api/novels.ts`)
together with its two external stores and instrumentation recording each
remote attempt.  `callCount` numbers remote requests in issue order;
`remoteAttempts` collects the indices at which `this.request` was issued
toward the preference service.  The class itself holds no field that
remembers earlier failures. -/
structure ApiState where
  callCount : Nat
  remoteAttempts : List Nat
  remotePrefs : List (Nat × UserPreference)
  localPrefs : List (Nat × UserPreference)
  deriving Repr, DecidableEq

/-- Issue one remote request: record the attempt and consult the
availability schedule (`true` = the request succeeds). -/
def attemptRemote (schedule : Nat → Bool) (s : ApiState) : ApiState × Bool :=
  ({ s with
      callCount := s.callCount + 1
      remoteAttempts := s.remoteAttempts ++ [s.callCount] },
    schedule s.callCount)

/-- Embeds `getUserPreferences` (`src/lib/api/novels.ts`, lines 219-228):
try the remote list endpoint; on any failure fall back to
`getAllLocalUserPreferences` for this one call. -/
def getUserPreferences (schedule : Nat → Bool) (s : ApiState) :
    ApiState × List UserPreference :=
  let (s1, up) := attemptRemote schedule s
  if up then (s1, s1.remotePrefs.map Prod.snd)
  else (s1, s1.localPrefs.map Prod.snd)

/-- Embeds `UpdateUserPreferenceRequest` of `src/lib/types/novel.ts`
(fields relevant to the fallback claims). -/
structure UpdatePrefRequest where
  status : Option String
  is_favorite : Option Bool
  current_chapter : Option Nat
  rating : Option Nat
  personal_notes : Option String
  deriving Repr, DecidableEq

/-- Spread semantics `{...existing, ...updates}` of
`updateLocalUserPreference`: a field present in the update wins. -/
def applyUpdates (base : UserPreference) (u : UpdatePrefRequest) : UserPreference :=
  { base with
    status := match u.status with | some v => some v | none => base.status
    is_favorite := match u.is_favorite with | some v => some v | none => base.is_favorite
    current_chapter := match u.current_chapter with | some v => some v | none => base.current_chapter
    rating := match u.rating with | some v => some v | none => base.rating
    personal_notes := match u.personal_notes with | some v => some v | none => base.personal_notes }

/-- The fresh record `{ id: Date.now(), novel_id: novelId, created_at }`
that `updateLocalUserPreference` starts from when no record exists. -/
def emptyPref (novelId : Nat) : UserPreference :=
  ⟨novelId, none, none, none, none, none, none, none⟩

/-- Upsert into an association-list store. -/
def storeSet (store : List (Nat × UserPreference)) (novelId : Nat) (p : UserPreference) :
    List (Nat × UserPreference) :=
  match store with
  | [] => [(novelId, p)]
  | (k, v) :: rest => if k = novelId then (novelId, p) :: rest else (k, v) :: storeSet rest novelId p

/-- Embeds `updateLocalUserPreference` (`src/lib/api/novels.ts`,
lines 426-443): merge the update into the existing local record (or a
fresh one) and write the whole map back. -/
def updateLocalUserPreference (s : ApiState) (novelId : Nat) (u : UpdatePrefRequest) :
    ApiState × UserPreference :=
  let existing := (s.localPrefs.lookup novelId).getD (emptyPref novelId)
  let updated := applyUpdates existing u
  ({ s with localPrefs := storeSet s.localPrefs novelId updated }, updated)

/-- Embeds `updateUserPreference` (`src/lib/api/novels.ts`,
lines 254-276): the remote PATCH is attempted first on every call (the
source consults no record of earlier failures); only when that very
attempt fails does the call fall back to `updateLocalUserPreference`.  The
remote service, an external collaborator, is modelled as the same merge
applied to the remote store. -/
def updateUserPreference (schedule : Nat → Bool) (s : ApiState) (novelId : Nat)
    (u : UpdatePrefRequest) : ApiState × UserPreference :=
  let (s1, up) := attemptRemote schedule s
  if up then
    let existing := (s1.remotePrefs.lookup novelId).getD (emptyPref novelId)
    let updated := applyUpdates existing u
    ({ s1 with remotePrefs := storeSet s1.remotePrefs novelId updated }, updated)
  else updateLocalUserPreference s1 novelId u

/-! ### Concrete fixtures used by witnesses and counterexamples -/

/-- An open session for item 1, started at epoch 0. -/
def sessionA : ReadingSessionRec := ⟨101, 1, some 5, 0, none, none, some "web"⟩

/-- A second session for item 1, as a successful remote start would
return it. -/
def sessionB : ReadingSessionRec := ⟨102, 1, some 6, 60000, none, none, some "web"⟩

/-- A store state in which item 1 has a registered open session. -/
def stateWithActive : ReadingSessionsState := ⟨[sessionA], [(1, sessionA)], false, none⟩

/-- The closed session a successful remote end call returns for
`sessionA`. -/
def endedA : ReadingSessionRec := ⟨101, 1, some 5, 0, some 3900000, some 65, some "web"⟩

/-- A catalog record with no preference record. -/
def novelA : Novel :=
  ⟨1, "Novel A", "Author A", "A description", "ongoing", ["fantasy"], none, none,
    100, 1, "web_novel", "ONGOING"⟩

/-- An availability schedule on which the first remote request fails and
every later one succeeds. -/
def failFirstSchedule : Nat → Bool := fun n => n != 0

/-- The preference client at the start of a logical session: no remote
request issued yet, both stores empty. -/
def apiState0 : ApiState := ⟨0, [], [], []⟩

/-- A status-only preference update. -/
def prefUpdateReading : UpdatePrefRequest := ⟨some "Reading", none, none, none, none⟩

/-! ## Claim C3: session duration clamping and flooring -/

/-- Claim C3: for every start timestamp and current time, the duration
computed by `endSession` is 1 minute whenever the elapsed time is negative
or under one minute, and otherwise the floor of the elapsed time in whole
minutes; it is always at least 1 (never 0, never negative); an elapsed
time of exactly 65 minutes yields 65 and one of 30 seconds yields 1. -/
theorem claim3_duration_clamp_floor (startMs nowMs : Int) :
    (nowMs - startMs < 60000 → sessionDurationMinutes startMs nowMs = 1) ∧
    (60000 ≤ nowMs - startMs →
      sessionDurationMinutes startMs nowMs = (nowMs - startMs) / 60000) ∧
    1 ≤ sessionDurationMinutes startMs nowMs ∧
    sessionDurationMinutes 0 (65 * 60000) = 65 ∧
    sessionDurationMinutes 0 30000 = 1 := by
  have h : sessionDurationMinutes startMs nowMs =
      if nowMs - startMs < 0 then 1
      else if nowMs - startMs < 60000 then 1
      else (nowMs - startMs) / 60000 := rfl
  refine ⟨?_, ?_, ?_, by decide, by decide⟩
  · intro hlt; rw [h]; split_ifs <;> omega
  · intro hge; rw [h]; split_ifs <;> omega
  · rw [h]; split_ifs <;> omega

/-- Concrete instance of `claim3_duration_clamp_floor`: a 30-second
elapsed time is clamped to 1 minute and a 65-minute elapsed time floors
to 65. -/
theorem claim3_witness :
    sessionDurationMinutes 0 30000 = 1 ∧
    sessionDurationMinutes 0 3900000 = (3900000 - 0) / 60000 :=
  ⟨(claim3_duration_clamp_floor 0 30000).1 (by decide),
    (claim3_duration_clamp_floor 0 3900000).2.1 (by decide)⟩

/-! ## Claim C7: status vocabulary translation -/

/-- Claim C7 as stated is false at one input: the empty string is a remote
status value outside the known set, yet `mapStatusToFrontend` sends it to
`undefined` (the falsy guard), not through unchanged. -/
theorem claim7_counterexample :
    BACKEND_TO_FRONTEND_STATUS.lookup "" = none ∧
    mapStatusToFrontend (some "") = none ∧
    mapStatusToFrontend (some "") ≠ some "" :=
  ⟨rfl, rfl, by decide⟩

/-- Claim C7 amended: every status in the presentation vocabulary
round-trips through the remote encoding (in particular via `on_hold`), and
every non-empty status value outside the known set of either direction
passes through that direction unchanged; the empty string is instead
treated as absent and maps to `undefined`. -/
theorem claim7_status_roundtrip :
    (∀ s ∈ ["Reading", "Wishlist", "Completed", "On Hold", "Dropped"],
      mapStatusToFrontend (mapStatusToBackend (some s)) = some s) ∧
    mapStatusToBackend (some "On Hold") = some "on_hold" ∧
    mapStatusToFrontend (some "on_hold") = some "On Hold" ∧
    (∀ s : String, s ≠ "" → BACKEND_TO_FRONTEND_STATUS.lookup s = none →
      mapStatusToFrontend (some s) = some s) ∧
    (∀ s : String, s ≠ "" → FRONTEND_TO_BACKEND_STATUS.lookup s = none →
      mapStatusToBackend (some s) = some s) := by
  refine ⟨by decide, by decide, by decide, ?_, ?_⟩
  · intro s hne hlk
    simp [mapStatusToFrontend, hne, hlk]
  · intro s hne hlk
    simp [mapStatusToBackend, hne, hlk]

/-- Concrete instance of `claim7_status_roundtrip`: a status string the
tables do not know passes through each direction unchanged. -/
theorem claim7_witness :
    mapStatusToFrontend (some "Casually Browsing") = some "Casually Browsing" ∧
    mapStatusToBackend (some "casually_browsing") = some "casually_browsing" :=
  ⟨claim7_status_roundtrip.2.2.2.1 "Casually Browsing" (by decide) (by decide),
    claim7_status_roundtrip.2.2.2.2 "casually_browsing" (by decide) (by decide)⟩

/-! ## Claim C8: statistics payload shape validation -/

/-- Claim C8: `loadNovelStats` keeps a payload exactly when the fetch
succeeded and delivered a non-array object whose total-time field is a
number; every other outcome (a rejected fetch included) leaves the
no-statistics state `none`, and in particular a payload missing the
total-time field yields `none`. -/
theorem claim8_stats_shape :
    (∀ response : Except String JsonValue,
      (loadNovelStats response).isSome ↔
        ∃ fields n, response = .ok (.obj fields) ∧
          fields.lookup "total_reading_time_minutes" = some (.num n)) ∧
    loadNovelStats (.ok (.obj [("session_count", .num 12)])) = none ∧
    loadNovelStats (.error "HTTP 500: Internal Server Error") = none := by
  refine ⟨?_, rfl, rfl⟩
  intro response
  cases response with
  | error e => simp [loadNovelStats]
  | ok stats =>
    cases stats with
    | null =>
        simp [loadNovelStats, validStatsShape, jsTruthy]
    | bool b =>
        simp [loadNovelStats, validStatsShape, jsTruthy, jsTypeofIsObject]
    | num n =>
        simp [loadNovelStats, validStatsShape, jsTruthy, jsTypeofIsObject]
    | str s =>
        simp [loadNovelStats, validStatsShape, jsTruthy, jsTypeofIsObject]
    | arr l =>
        simp [loadNovelStats, validStatsShape, jsTruthy, jsTypeofIsObject, jsIsArray]
    | obj fields =>
        simp only [loadNovelStats, validStatsShape, jsTruthy, jsTypeofIsObject, jsIsArray,
          fieldIsNumber, getField, Bool.true_and, Bool.and_true, Bool.not_false]
        cases h : fields.lookup "total_reading_time_minutes" with
        | none => simp [h]
        | some v => cases v <;> simp [h]

/-! ## Claim C9: session duration formatting -/

/-- Claim C9: `formatSessionDuration` returns Unknown when the duration is
absent and also when it is 0; for every positive duration it returns the
hours-and-minutes decomposition with hours the quotient by 60 and minutes
the remainder, which recompose to the original duration. -/
theorem claim9_format_duration :
    formatSessionDuration none = "Unknown" ∧
    formatSessionDuration (some 0) = "Unknown" ∧
    ∀ d : Nat, 0 < d →
      formatSessionDuration (some d) =
        (if d / 60 > 0 then toString (d / 60) ++ "h " ++ toString (d % 60) ++ "m"
          else toString (d % 60) ++ "m") ∧
      d / 60 * 60 + d % 60 = d := by
  refine ⟨rfl, rfl, ?_⟩
  intro d hd
  constructor
  · have hne : ¬ d = 0 := Nat.pos_iff_ne_zero.mp hd
    simp only [formatSessionDuration, if_neg hne]
  · omega

/-- Concrete instance of `claim9_format_duration`: 125 minutes formats as
two hours and five minutes and recomposes. -/
theorem claim9_witness :
    formatSessionDuration (some 125) =
      (if 125 / 60 > 0 then toString (125 / 60) ++ "h " ++ toString (125 % 60) ++ "m"
        else toString (125 % 60) ++ "m") ∧
    125 / 60 * 60 + 125 % 60 = 125 :=
  claim9_format_duration.2.2 125 (by decide)

/-! ## Registry (association-list map) lemmas -/

/-- A key outside the key list looks up to nothing. -/
theorem lookup_eq_none_of_not_mem_keys (m : ActiveSessions) (k : Nat)
    (h : k ∉ m.map Prod.fst) : mapGet m k = none := by
  induction m with
  | nil => rfl
  | cons hd tl ih =>
    obtain ⟨k0, v0⟩ := hd
    simp only [List.map_cons, List.mem_cons, not_or] at h
    have hk : (k == k0) = false := by simp [h.1]
    simp only [mapGet, List.lookup, hk]
    exact ih h.2

/-- After `Map.set`, the key reads back the stored value. -/
theorem mapGet_mapSet (m : ActiveSessions) (k : Nat) (v : ReadingSessionRec) :
    mapGet (mapSet m k v) k = some v := by
  induction m with
  | nil => simp [mapSet, mapGet, List.lookup]
  | cons hd tl ih =>
    obtain ⟨k0, v0⟩ := hd
    by_cases h : k0 = k
    · simp [mapSet, h, mapGet, List.lookup]
    · have hk : (k == k0) = false := by simp [Ne.symm h]
      simp only [mapSet, if_neg h, mapGet, List.lookup, hk]
      exact ih

/-- Every key present after `Map.set` was already present or is the one
just stored. -/
theorem mem_keys_mapSet (m : ActiveSessions) (k : Nat) (v : ReadingSessionRec)
    (a : Nat) (h : a ∈ (mapSet m k v).map Prod.fst) :
    a ∈ m.map Prod.fst ∨ a = k := by
  induction m with
  | nil => simpa [mapSet] using h
  | cons hd tl ih =>
    obtain ⟨k0, v0⟩ := hd
    by_cases hk : k0 = k
    · simp only [mapSet, if_pos hk, List.map_cons, List.mem_cons] at h ⊢
      rcases h with h | h
      · exact Or.inr h
      · exact Or.inl (Or.inr h)
    · simp only [mapSet, if_neg hk, List.map_cons, List.mem_cons] at h ⊢
      rcases h with h | h
      · exact Or.inl (Or.inl h)
      · rcases ih h with h2 | h2
        · exact Or.inl (Or.inr h2)
        · exact Or.inr h2

/-- `Map.set` keeps the key list free of duplicates. -/
theorem keys_mapSet_nodup (m : ActiveSessions) (k : Nat) (v : ReadingSessionRec)
    (h : (m.map Prod.fst).Nodup) : ((mapSet m k v).map Prod.fst).Nodup := by
  induction m with
  | nil => simp [mapSet]
  | cons hd tl ih =>
    obtain ⟨k0, v0⟩ := hd
    simp only [List.map_cons, List.nodup_cons] at h
    by_cases hk : k0 = k
    · subst hk
      simpa [mapSet, List.nodup_cons] using h
    · simp only [mapSet, if_neg hk, List.map_cons, List.nodup_cons]
      refine ⟨fun hmem => ?_, ih h.2⟩
      rcases mem_keys_mapSet tl k v k0 hmem with h2 | h2
      · exact h.1 h2
      · exact hk h2

/-- With unique keys, `Map.delete` removes the binding. -/
theorem mapGet_mapDelete (m : ActiveSessions) (k : Nat)
    (h : (m.map Prod.fst).Nodup) : mapGet (mapDelete m k) k = none := by
  induction m with
  | nil => rfl
  | cons hd tl ih =>
    obtain ⟨k0, v0⟩ := hd
    simp only [List.map_cons, List.nodup_cons] at h
    by_cases hk : k0 = k
    · subst hk
      simp only [mapDelete, if_pos rfl]
      exact lookup_eq_none_of_not_mem_keys tl k0 h.1
    · have hbeq : (k == k0) = false := by simp [Ne.symm hk]
      simp only [mapDelete, if_neg hk, mapGet, List.lookup, hbeq]
      exact ih h.2

/-! ## Claim C1: a second start for an item with an open session -/

/-- Claim C1 fails as stated: from a state in which item 1 already has a
registered open session, a second `startSession` whose remote call
succeeds does not fail - it returns the new session and silently replaces
the registered open session for the item. -/
theorem claim1_counterexample :
    mapGet stateWithActive.activeSessions 1 = some sessionA ∧
    (startSession stateWithActive 1 (.ok sessionB)).2 = .ok sessionB ∧
    mapGet (startSession stateWithActive 1 (.ok sessionB)).1.activeSessions 1 = some sessionB ∧
    sessionB ≠ sessionA :=
  ⟨rfl, rfl, rfl, by decide⟩

/-- Claim C1 amended: `startSession` consults the open-session registry
nowhere, so whether it fails is decided solely by the remote call.  When
the remote call succeeds the returned session is registered for the item,
silently replacing any open session already registered there; when it
fails the error is recorded and rethrown and the registry is unchanged.
The registry, being keyed by item id, still holds at most one open
session per item (unique keys are preserved). -/
theorem claim1_start_no_reject (state : ReadingSessionsState) (novelId : Nat)
    (session : ReadingSessionRec) (e : String)
    (hnd : (state.activeSessions.map Prod.fst).Nodup) :
    (startSession state novelId (.ok session)).2 = .ok session ∧
    mapGet (startSession state novelId (.ok session)).1.activeSessions novelId = some session ∧
    (startSession state novelId (.error e)).2 = .error e ∧
    (startSession state novelId (.error e)).1.activeSessions = state.activeSessions ∧
    (((startSession state novelId (.ok session)).1.activeSessions.map Prod.fst)).Nodup :=
  ⟨rfl, mapGet_mapSet state.activeSessions novelId session, rfl, rfl,
    keys_mapSet_nodup state.activeSessions novelId session hnd⟩

/-- Concrete instance of `claim1_start_no_reject` at the fixture state. -/
theorem claim1_witness :
    (startSession stateWithActive 1 (.ok sessionB)).2 = .ok sessionB ∧
    mapGet (startSession stateWithActive 1 (.ok sessionB)).1.activeSessions 1 = some sessionB ∧
    (startSession stateWithActive 1 (.error "HTTP 409")).2 = .error "HTTP 409" ∧
    (startSession stateWithActive 1 (.error "HTTP 409")).1.activeSessions =
      stateWithActive.activeSessions ∧
    (((startSession stateWithActive 1 (.ok sessionB)).1.activeSessions.map Prod.fst)).Nodup :=
  claim1_start_no_reject stateWithActive 1 sessionB "HTTP 409" (by decide)

/-! ## Claim C2: the completion callback of a successful end -/

/-- Claim C2 fails as stated: with the remote close succeeding, a
callback that throws makes `endSession` fail - the result is the callback
error, not the closed session, even though the registry entry for the
item was removed. -/
theorem claim2_counterexample :
    (endSession stateWithActive 1 3900000 (some 5) (fun _ => .ok endedA)
        (some (.error "callback failed"))).2 = .error "callback failed" ∧
    ((.error "callback failed" : Except String ReadingSessionRec) ≠ .ok endedA) ∧
    mapGet (endSession stateWithActive 1 3900000 (some 5) (fun _ => .ok endedA)
        (some (.error "callback failed"))).1.activeSessions 1 = none :=
  ⟨rfl, fun h => Except.noConfusion h, rfl⟩

/-- Claim C2 amended: when the remote close succeeds, the registry entry
for the item is removed and the callback is then invoked; if the callback
is absent or returns normally, `endSession` returns the closed session,
but if the callback throws, the exception reaches the surrounding catch,
which records it in the error state and rethrows it, so `endSession`
fails instead of returning the closed session.  The registry entry stays
removed in every case. -/
theorem claim2_end_callback (state : ReadingSessionsState) (novelId : Nat)
    (nowMs : Int) (fc : Option Nat)
    (api : UpdateReadingSessionRequest → Except String ReadingSessionRec)
    (endedSession activeSession : ReadingSessionRec) (cbErr : String)
    (hnd : (state.activeSessions.map Prod.fst).Nodup)
    (hact : mapGet state.activeSessions novelId = some activeSession)
    (hapi : ∀ u, api u = .ok endedSession) :
    (endSession state novelId nowMs fc api none).2 = .ok endedSession ∧
    (endSession state novelId nowMs fc api (some (.ok ()))).2 = .ok endedSession ∧
    (endSession state novelId nowMs fc api (some (.error cbErr))).2 = .error cbErr ∧
    (endSession state novelId nowMs fc api (some (.error cbErr))).1.error = some cbErr ∧
    mapGet (endSession state novelId nowMs fc api
      (some (.error cbErr))).1.activeSessions novelId = none ∧
    mapGet (endSession state novelId nowMs fc api none).1.activeSessions novelId = none := by
  have hdel : mapGet (mapDelete state.activeSessions novelId) novelId = none :=
    mapGet_mapDelete state.activeSessions novelId hnd
  refine ⟨?_, ?_, ?_, ?_, ?_, ?_⟩ <;>
    simp [endSession, hact, hapi, hdel]

/-- Concrete instance of `claim2_end_callback` at the fixture state. -/
theorem claim2_witness :
    (endSession stateWithActive 1 3900000 (some 5) (fun _ => .ok endedA) none).2 = .ok endedA ∧
    (endSession stateWithActive 1 3900000 (some 5) (fun _ => .ok endedA)
        (some (.ok ()))).2 = .ok endedA ∧
    (endSession stateWithActive 1 3900000 (some 5) (fun _ => .ok endedA)
        (some (.error "boom"))).2 = .error "boom" ∧
    (endSession stateWithActive 1 3900000 (some 5) (fun _ => .ok endedA)
        (some (.error "boom"))).1.error = some "boom" ∧
    mapGet (endSession stateWithActive 1 3900000 (some 5) (fun _ => .ok endedA)
        (some (.error "boom"))).1.activeSessions 1 = none ∧
    mapGet (endSession stateWithActive 1 3900000 (some 5) (fun _ => .ok endedA)
        none).1.activeSessions 1 = none :=
  claim2_end_callback stateWithActive 1 3900000 (some 5) (fun _ => .ok endedA)
    endedA sessionA "boom" (by decide) rfl (fun _ => rfl)

/-! ## Claim C5: the enhanced view join and its defaults -/

/-- Claim C5 fails as stated on its defaults clause: for a catalog item
with no preference record the overlay fields of its enhanced entry are
absent (`undefined`), not the explicit values false and 0. -/
theorem claim5_counterexample :
    (enhancedNovels [novelA] []).map (fun e => e.isFavorite) = [none] ∧
    (enhancedNovels [novelA] []).map (fun e => e.isFavorite) ≠ [some false] ∧
    (enhancedNovels [novelA] []).map (fun e => e.currentChapter) = [none] ∧
    (enhancedNovels [novelA] []).map (fun e => e.currentChapter) ≠ [some 0] :=
  ⟨rfl, by decide, rfl, by decide⟩

/-- Claim C5 amended: the enhanced view has exactly one entry per catalog
record, in order (none dropped, none duplicated), and for a catalog item
with no preference record the overlay fields of its entry are all unset
(`undefined`), which consumers read as no status, not favorite, and no
progress. -/
theorem claim5_enhanced_join (novels : List Novel) (preferences : Preferences) :
    (enhancedNovels novels preferences).map (fun e => e.novel) = novels ∧
    ∀ e ∈ enhancedNovels novels preferences,
      prefsLookup preferences e.novel.id = none →
        e.userPreference = none ∧ e.userStatus = none ∧ e.isFavorite = none ∧
          e.currentChapter = none := by
  constructor
  · induction novels with
    | nil => rfl
    | cons hd tl ih => simpa [enhancedNovels] using ih
  · intro e he hlk
    simp only [enhancedNovels, List.mem_map] at he
    rcases he with ⟨n, _, rfl⟩
    refine ⟨?_, ?_, ?_, ?_⟩ <;> simp_all [getUserNovelData]

/-- Concrete instance of `claim5_enhanced_join` at a one-item catalog with
an empty preference map. -/
theorem claim5_witness :
    (enhancedNovels [novelA] []).map (fun e => e.novel) = [novelA] ∧
    ∀ e ∈ enhancedNovels [novelA] [],
      prefsLookup [] e.novel.id = none →
        e.userPreference = none ∧ e.userStatus = none ∧ e.isFavorite = none ∧
          e.currentChapter = none :=
  claim5_enhanced_join [novelA] []

/-! ## Claim C6: per-call fallback, not a session-wide latch -/

/-- Claim C6 fails as stated: after the first preference read fails
against the remote service (attempt 0) and serves local data, the next
preference operation attempts the remote service again (attempt 1) and,
the remote being reachable, writes to the remote store while the local
fallback stays empty - remote and local are mixed within one session. -/
theorem claim6_counterexample :
    failFirstSchedule 0 = false ∧
    (getUserPreferences failFirstSchedule apiState0).1.remoteAttempts = [0] ∧
    (getUserPreferences failFirstSchedule apiState0).2 = [] ∧
    (updateUserPreference failFirstSchedule (getUserPreferences failFirstSchedule apiState0).1
        7 prefUpdateReading).1.remoteAttempts = [0, 1] ∧
    (updateUserPreference failFirstSchedule (getUserPreferences failFirstSchedule apiState0).1
        7 prefUpdateReading).1.remotePrefs =
      [(7, ⟨7, some "Reading", none, none, none, none, none, none⟩)] ∧
    (updateUserPreference failFirstSchedule (getUserPreferences failFirstSchedule apiState0).1
        7 prefUpdateReading).1.localPrefs = [] :=
  ⟨rfl, rfl, rfl, rfl, rfl, rfl⟩

/-- Claim C6 amended: the preference client holds no memory of earlier
failures; every read and every update first attempts the remote service
(one more recorded attempt at the current call index, unconditionally),
and only when that very attempt fails does that one call use the local
fallback store, so a later operation in the same session can reach and
mutate the remote again. -/
theorem claim6_no_latch (schedule : Nat → Bool) (s : ApiState) (novelId : Nat)
    (u : UpdatePrefRequest) :
    (getUserPreferences schedule s).1.remoteAttempts = s.remoteAttempts ++ [s.callCount] ∧
    (updateUserPreference schedule s novelId u).1.remoteAttempts =
      s.remoteAttempts ++ [s.callCount] ∧
    (schedule s.callCount = false →
      (getUserPreferences schedule s).2 = s.localPrefs.map Prod.snd ∧
      (updateUserPreference schedule s novelId u).1.remotePrefs = s.remotePrefs) ∧
    (schedule s.callCount = true →
      (getUserPreferences schedule s).2 = s.remotePrefs.map Prod.snd ∧
      (updateUserPreference schedule s novelId u).1.localPrefs = s.localPrefs) := by
  refine ⟨?_, ?_, fun hdown => ⟨?_, ?_⟩, fun hup => ⟨?_, ?_⟩⟩ <;>
    cases h : schedule s.callCount <;>
      simp_all [getUserPreferences, updateUserPreference, attemptRemote,
        updateLocalUserPreference]

/-! ## Claim C10: cross-item statistics invariants -/

/-- One `forEach` iteration of `readingStats`, written out field by
field. -/
theorem statsStep_eq (s : ReadingStatsCounts) (p : UserPreference) :
    statsStep s p =
      { total := s.total + 1
        reading := s.reading + (if p.status = some "Reading" then 1 else 0)
        completed := s.completed + (if p.status = some "Completed" then 1 else 0)
        onHold := s.onHold + (if p.status = some "On Hold" then 1 else 0)
        dropped := s.dropped + (if p.status = some "Dropped" then 1 else 0)
        wishlist := s.wishlist + (if p.status = some "Wishlist" then 1 else 0)
        favorites := s.favorites + (if p.is_favorite = some true then 1 else 0) } := by
  unfold statsStep
  split <;> split_ifs <;> simp_all

/-- The fold underlying `readingStats`, characterized per field over an
arbitrary accumulator. -/
theorem foldl_statsStep (l : List UserPreference) :
    ∀ init : ReadingStatsCounts,
      (l.foldl statsStep init).total = init.total + l.length ∧
      (l.foldl statsStep init).reading =
        init.reading + l.countP (fun p => p.status == some "Reading") ∧
      (l.foldl statsStep init).completed =
        init.completed + l.countP (fun p => p.status == some "Completed") ∧
      (l.foldl statsStep init).onHold =
        init.onHold + l.countP (fun p => p.status == some "On Hold") ∧
      (l.foldl statsStep init).dropped =
        init.dropped + l.countP (fun p => p.status == some "Dropped") ∧
      (l.foldl statsStep init).wishlist =
        init.wishlist + l.countP (fun p => p.status == some "Wishlist") ∧
      (l.foldl statsStep init).favorites =
        init.favorites + l.countP (fun p => p.is_favorite == some true) := by
  induction l with
  | nil => intro init; simp
  | cons hd tl ih =>
    intro init
    obtain ⟨h1, h2, h3, h4, h5, h6, h7⟩ := ih (statsStep init hd)
    simp only [List.foldl_cons, List.countP_cons, List.length_cons,
      h1, h2, h3, h4, h5, h6, h7]
    simp only [statsStep_eq, beq_iff_eq]
    refine ⟨by omega, ?_, ?_, ?_, ?_, ?_, ?_⟩ <;>
      · split_ifs <;> omega

/-- A single status value contributes exactly once across the five
per-status tests and the unrecognized-status test. -/
theorem status_buckets_one (st : Option String) :
    (if st == some "Reading" then 1 else 0) + (if st == some "Completed" then 1 else 0) +
      (if st == some "On Hold" then 1 else 0) + (if st == some "Dropped" then 1 else 0) +
      (if st == some "Wishlist" then 1 else 0) +
      (if !(isKnownStatus st) then 1 else 0) = 1 := by
  rcases st with _ | s
  · decide
  · by_cases h1 : s = "Reading"
    · subst h1; decide
    · by_cases h2 : s = "Completed"
      · subst h2; decide
      · by_cases h3 : s = "On Hold"
        · subst h3; decide
        · by_cases h4 : s = "Dropped"
          · subst h4; decide
          · by_cases h5 : s = "Wishlist"
            · subst h5; decide
            · simp [isKnownStatus, h1, h2, h3, h4, h5]

/-- Each entry lands in exactly one bucket: the five per-status counts
plus the unrecognized-status count exhaust the list. -/
theorem countP_status_split (l : List UserPreference) :
    l.countP (fun p => p.status == some "Reading") +
      l.countP (fun p => p.status == some "Completed") +
      l.countP (fun p => p.status == some "On Hold") +
      l.countP (fun p => p.status == some "Dropped") +
      l.countP (fun p => p.status == some "Wishlist") +
      l.countP (fun p => !(isKnownStatus p.status)) = l.length := by
  induction l with
  | nil => rfl
  | cons hd tl ih =>
    simp only [List.countP_cons, List.length_cons]
    have hone := status_buckets_one hd.status
    omega

/-- Claim C10: over any preference map, `total` is the number of entries,
`favorites` the number of entries with the favorite flag set, and the five
per-status buckets sum to at most `total`, strictly less exactly when some
entry's status is missing or outside the five known values. -/
theorem claim10_reading_stats (preferences : Preferences) :
    (readingStats preferences).total = preferences.length ∧
    (readingStats preferences).favorites =
      (preferences.map Prod.snd).countP (fun p => p.is_favorite == some true) ∧
    (readingStats preferences).reading + (readingStats preferences).completed +
        (readingStats preferences).onHold + (readingStats preferences).dropped +
        (readingStats preferences).wishlist ≤ (readingStats preferences).total ∧
    ((readingStats preferences).reading + (readingStats preferences).completed +
        (readingStats preferences).onHold + (readingStats preferences).dropped +
        (readingStats preferences).wishlist < (readingStats preferences).total ↔
      ∃ p ∈ preferences.map Prod.snd, isKnownStatus p.status = false) := by
  obtain ⟨h1, h2, h3, h4, h5, h6, h7⟩ := foldl_statsStep (preferences.map Prod.snd) ⟨0, 0, 0, 0, 0, 0, 0⟩
  have hz1 : (⟨0, 0, 0, 0, 0, 0, 0⟩ : ReadingStatsCounts).total = 0 := rfl
  have hz2 : (⟨0, 0, 0, 0, 0, 0, 0⟩ : ReadingStatsCounts).reading = 0 := rfl
  have hz3 : (⟨0, 0, 0, 0, 0, 0, 0⟩ : ReadingStatsCounts).completed = 0 := rfl
  have hz4 : (⟨0, 0, 0, 0, 0, 0, 0⟩ : ReadingStatsCounts).onHold = 0 := rfl
  have hz5 : (⟨0, 0, 0, 0, 0, 0, 0⟩ : ReadingStatsCounts).dropped = 0 := rfl
  have hz6 : (⟨0, 0, 0, 0, 0, 0, 0⟩ : ReadingStatsCounts).wishlist = 0 := rfl
  have hz7 : (⟨0, 0, 0, 0, 0, 0, 0⟩ : ReadingStatsCounts).favorites = 0 := rfl
  have hsplit := countP_status_split (preferences.map Prod.snd)
  have hlen : (preferences.map Prod.snd).length = preferences.length := List.length_map _ _
  have hpos : 0 < (preferences.map Prod.snd).countP (fun p => !(isKnownStatus p.status)) ↔
      ∃ p ∈ preferences.map Prod.snd, isKnownStatus p.status = false := by
    rw [List.countP_pos_iff]
    constructor
    · rintro ⟨p, hp, hb⟩
      exact ⟨p, hp, by simpa using hb⟩
    · rintro ⟨p, hp, hb⟩
      exact ⟨p, hp, by simpa using hb⟩
  unfold readingStats
  refine ⟨by omega, by omega, by omega, ?_⟩
  rw [h1, h2, h3, h4, h5, h6]
  constructor
  · intro hlt
    exact hpos.mp (by omega)
  · intro hex
    have := hpos.mpr hex
    omega

/-! ## Claim C4: the day-streak walk -/

/-- Claim C4 fails on its second example: with today = day 10 and
sessions on days 10 and 8 only (a gap at day 9), the walk still
increments at the second session because its two-day gap equals the
running streak plus one, so the streak is 2, not 1. -/
theorem claim4_counterexample :
    calculateReadingStreak (10 * dayMs + 43200000)
      [sessionOnDay 1 8 3600000, sessionOnDay 2 10 3600000] = 2 ∧
    calculateReadingStreak (10 * dayMs + 43200000)
      [sessionOnDay 1 8 3600000, sessionOnDay 2 10 3600000] ≠ 1 := by
  exact ⟨by decide, by decide⟩

/-- Claim C4 amended: the walk sorts sessions by start time descending,
truncates to day boundaries, and increments while each gap equals the
running streak or that plus one; sessions on days D, D-1, D-2 with D
today yield 3, and sessions on only D and D-2 yield 2, because the
one-more tolerance also accepts the gap at the missing day D-1. -/
theorem claim4_streak_amended (D : Int) :
    calculateReadingStreak (D * dayMs)
      [sessionOnDay 1 (D - 2) 0, sessionOnDay 2 (D - 1) 0, sessionOnDay 3 D 0] = 3 ∧
    calculateReadingStreak (D * dayMs)
      [sessionOnDay 1 (D - 2) 0, sessionOnDay 3 D 0] = 2 := by
  have hm : midnight (D * dayMs) = D * dayMs := by
    unfold midnight dayMs
    rw [Int.mul_ediv_cancel _ (by norm_num)]
  have hstep : ∀ (s : ReadingSessionRec) (rest : List ReadingSessionRec) (k : Nat),
      streakWalk (D * dayMs) (s :: rest) k =
        if (D * dayMs - midnight s.started_at) / dayMs = (k : Int) then
          streakWalk (D * dayMs) rest (k + 1)
        else if (D * dayMs - midnight s.started_at) / dayMs = (k : Int) + 1 then
          streakWalk (D * dayMs) rest (k + 1)
        else k :=
    fun _ _ _ => rfl
  have hcb : ¬ ((sessionOnDay 3 D 0).started_at < (sessionOnDay 2 (D - 1) 0).started_at) := by
    simp only [sessionOnDay, dayMs]
    omega
  have hca : ¬ ((sessionOnDay 3 D 0).started_at < (sessionOnDay 1 (D - 2) 0).started_at) := by
    simp only [sessionOnDay, dayMs]
    omega
  have hba : ¬ ((sessionOnDay 2 (D - 1) 0).started_at < (sessionOnDay 1 (D - 2) 0).started_at) := by
    simp only [sessionOnDay, dayMs]
    omega
  have hdc : (D * dayMs - midnight (sessionOnDay 3 D 0).started_at) / dayMs = 0 := by
    simp only [sessionOnDay, midnight, dayMs]
    omega
  have hdb : (D * dayMs - midnight (sessionOnDay 2 (D - 1) 0).started_at) / dayMs = 1 := by
    simp only [sessionOnDay, midnight, dayMs]
    omega
  have hda : (D * dayMs - midnight (sessionOnDay 1 (D - 2) 0).started_at) / dayMs = 2 := by
    simp only [sessionOnDay, midnight, dayMs]
    omega
  constructor
  · show streakWalk (midnight (D * dayMs))
      (sortDesc [sessionOnDay 1 (D - 2) 0, sessionOnDay 2 (D - 1) 0, sessionOnDay 3 D 0]) 0 = 3
    have hsort : sortDesc [sessionOnDay 1 (D - 2) 0, sessionOnDay 2 (D - 1) 0, sessionOnDay 3 D 0]
        = [sessionOnDay 3 D 0, sessionOnDay 2 (D - 1) 0, sessionOnDay 1 (D - 2) 0] := by
      simp only [sortDesc, insertDesc, if_neg hcb, if_neg hca, if_neg hba]
    rw [hm, hsort]
    rw [hstep, hdc, if_pos (by norm_num)]
    rw [hstep, hdb, if_pos (by norm_num)]
    rw [hstep, hda, if_pos (by norm_num)]
    rfl
  · show streakWalk (midnight (D * dayMs))
      (sortDesc [sessionOnDay 1 (D - 2) 0, sessionOnDay 3 D 0]) 0 = 2
    have hsort : sortDesc [sessionOnDay 1 (D - 2) 0, sessionOnDay 3 D 0]
        = [sessionOnDay 3 D 0, sessionOnDay 1 (D - 2) 0] := by
      simp only [sortDesc, insertDesc, if_neg hca]
    rw [hm, hsort]
    rw [hstep, hdc, if_pos (by norm_num)]
    rw [hstep, hda, if_neg (by norm_num), if_pos (by norm_num)]
    rfl

end LNB
